import Mathlib

/-
Verification of the Online_Monitor repository: a shallow embedding of the
availability / notification state machine implemented by `monitor.py`
(long-running loop, class `OnlineSimMonitor`) and `monitor_one_shot.py`
(single decision cycle per process invocation), together with theorems
settling the specification's claims about them.

Modelling conventions:
  * timestamps are `Int` seconds; `datetime` subtraction + `total_seconds()`
    becomes integer subtraction;
  * a remote JSON reply is embedded as an inductive of the shapes the code
    distinguishes; a raised transport/parse exception is an explicit
    constructor (`exn`), since the code catches it at a specific place;
  * the persistent purchase log `purchased_numbers.json` is `LogFile`:
    missing file, unparseable content, or a list of records;
  * SMTP delivery outcome is an oracle bit (`smtpOk`) supplied with the poll.
-/

namespace OnlineMonitor

/-- One `service_<name>` entry of the stats payload: `count` and `price`
may each be absent (`dict.get` with default in the source). -/
structure ServiceEntry where
  count? : Option Int
  price? : Option String
  deriving Repr, DecidableEq

/-- Result of the `getNumbersStats.php` request as the code discriminates it:
a raised transport/parse exception, a payload that is not a dict or lacks
the `services` key, a `services` dict missing the `service_<name>` key, or
the service entry itself. -/
inductive StatsResult where
  | exn
  | nonDict
  | missingService
  | svc (entry : ServiceEntry)
  deriving Repr, DecidableEq

/-- `OnlineSimMonitor.check_numbers_available` (monitor.py lines 35-82):
returns `(available, count, service_data)`; every error path is caught and
degrades to `(False, 0, None)`. -/
def check_numbers_available : StatsResult → Bool × Int × Option ServiceEntry
  | .exn => (false, 0, none)
  | .nonDict => (false, 0, none)
  | .missingService => (false, 0, none)
  | .svc e =>
      let count := e.count?.getD 0
      if 0 < count then (true, count, some e) else (false, 0, none)

/-- One reply to a `getNum.php` allocation request, as the purchase loops
discriminate it: a successful allocation (`tzid` and `number` present), the
explicit `NO_NUMBER` stock-exhaustion sentinel, an error dict carrying
`msg`, any other unexpected shape (including a non-dict payload), or a
raised transport/parse exception. -/
inductive PurchaseReply where
  | success (tzid : String) (number : String) (price? : Option String)
  | noNumber
  | errMsg (msg : String)
  | unexpected
  | exn
  deriving Repr, DecidableEq

/-- A purchased-number record as built by `monitor.py` (before the save-time
stamp). -/
structure NumberInfo where
  tzid : String
  number : String
  price : String
  deriving Repr, DecidableEq

/-- A record of the persistent purchase log (fields of the one-shot entries
and of the monitor entries after stamping coincide). -/
structure LoggedNumber where
  tzid : String
  number : String
  price : String
  purchased_at : Int
  deriving Repr, DecidableEq

/-- The `purchased_numbers.json` file: absent, present but unparseable, or
a parseable list of records. -/
inductive LogFile where
  | missing
  | corrupt (raw : String)
  | records (entries : List LoggedNumber)
  deriving Repr, DecidableEq

/-- Outcome of the purchase loop body of `monitor.py`: the records
accumulated, the number of allocation requests issued, and whether the loop
was ended by a raised exception (which skips the save step). -/
structure BatchOutcome where
  purchased : List NumberInfo
  requests : Nat
  raised : Bool
  deriving Repr, DecidableEq

/-- The `for i in range(quantity)` loop of
`OnlineSimMonitor.purchase_numbers` (monitor.py lines 95-131): `replies i`
is the reply the remote gives to the i-th request.  A success appends a
record, `NO_NUMBER` breaks, a `msg` error or unexpected shape logs and
continues, a raised exception aborts the whole `try` block (the records so
far survive through the `except` clause, `raised` marks that the save step
is skipped). -/
def purchaseGo (replies : Nat → PurchaseReply) : Nat → Nat → BatchOutcome
  | _, 0 => ⟨[], 0, false⟩
  | i, k+1 =>
      match replies i with
      | .success t n p =>
          let rest := purchaseGo replies (i+1) k
          ⟨⟨t, n, p.getD "N/A"⟩ :: rest.purchased, rest.requests + 1, rest.raised⟩
      | .noNumber => ⟨[], 1, false⟩
      | .errMsg _ =>
          let rest := purchaseGo replies (i+1) k
          ⟨rest.purchased, rest.requests + 1, rest.raised⟩
      | .unexpected =>
          let rest := purchaseGo replies (i+1) k
          ⟨rest.purchased, rest.requests + 1, rest.raised⟩
      | .exn => ⟨[], 1, true⟩

/-- The per-record stamp `num['purchased_at'] = datetime.now()...` applied
by `save_purchased_numbers`. -/
def stampRecord (now : Int) (n : NumberInfo) : LoggedNumber :=
  ⟨n.tzid, n.number, n.price, now⟩

/-- `OnlineSimMonitor.save_purchased_numbers` (monitor.py lines 146-172):
loads the existing file when present (a parse failure raises and is caught,
so nothing is written), stamps each new record with the save time, appends,
and writes the whole list back. -/
def save_purchased_numbers (now : Int) (log : LogFile)
    (purchased : List NumberInfo) : LogFile :=
  match log with
  | .missing => .records (purchased.map (stampRecord now))
  | .corrupt raw => .corrupt raw
  | .records prior => .records (prior ++ purchased.map (stampRecord now))

/-- Result of `OnlineSimMonitor.purchase_numbers`: the returned list, the
purchase-log file after the call, and the number of allocation requests
issued. -/
structure PurchaseResult where
  purchased : List NumberInfo
  log : LogFile
  requests : Nat
  deriving Repr, DecidableEq

/-- `OnlineSimMonitor.purchase_numbers` (monitor.py lines 84-144): returns
`[]` at once when auto-purchase is disabled; otherwise runs the allocation
loop; on a raised exception the records so far are returned but the save
step is skipped; otherwise a non-empty result is saved to the log. -/
def purchase_numbers (autoPurchase : Bool) (quantity : Nat)
    (replies : Nat → PurchaseReply) (now : Int) (log : LogFile) : PurchaseResult :=
  if autoPurchase = false then ⟨[], log, 0⟩
  else
    let o := purchaseGo replies 0 quantity
    if o.raised then ⟨o.purchased, log, o.requests⟩
    else if o.purchased.isEmpty then ⟨o.purchased, log, o.requests⟩
    else ⟨o.purchased, save_purchased_numbers now log o.purchased, o.requests⟩

/-- `OnlineSimMonitor.send_email_notification` reduced to its success bit
(monitor.py lines 174-320): `False` immediately when email is disabled,
otherwise the SMTP delivery outcome; on success it is the only place that
sets `self.last_notification_time` (line 315). -/
def send_email_notification (emailEnabled : Bool) (smtpOk : Bool) : Bool :=
  if emailEnabled = false then false else smtpOk

/-- Configuration constants of `monitor.py` (imported from `config`). -/
structure MonConfig where
  cooldown : Int
  checkInterval : Int
  recheckInterval : Int
  autoPurchase : Bool
  purchaseQuantity : Nat
  emailEnabled : Bool
  deriving Repr, DecidableEq

/-- The mutable controller state of `OnlineSimMonitor`:
`self.last_notification_time` and `self.numbers_were_available`. -/
structure MonState where
  last_notification_time : Option Int
  numbers_were_available : Bool
  deriving Repr, DecidableEq

/-- The environment of one iteration of the `monitor.py` loop: the stats
reply, the wall clock, whether SMTP delivery would succeed, and the stream
of allocation replies. -/
structure MonPoll where
  stats : StatsResult
  now : Int
  smtpOk : Bool
  replies : Nat → PurchaseReply

/-- Observable actions of one iteration of the `monitor.py` loop. -/
structure MonActions where
  notifyAttempted : Bool
  emailSent : Bool
  purchaseRequests : Nat
  purchased : List NumberInfo
  sleepFor : Int
  deriving Repr, DecidableEq

/-- One iteration of `OnlineSimMonitor.run` (monitor.py lines 331-376):
probe; if available and never notified, purchase (when enabled) and notify,
recording the time only on delivery success; if available and previously
notified, re-notify only when `numbers_were_available` held and a full
cooldown elapsed; otherwise wait.  If not available, only drop
`numbers_were_available` (the timestamp is never cleared here). -/
def monStep (cfg : MonConfig) (st : MonState) (log : LogFile) (p : MonPoll) :
    MonState × LogFile × MonActions :=
  let probed := check_numbers_available p.stats
  if probed.1 then
    match st.last_notification_time with
    | none =>
        let pr := if cfg.autoPurchase then
            purchase_numbers cfg.autoPurchase cfg.purchaseQuantity p.replies p.now log
          else ⟨[], log, 0⟩
        let sent := send_email_notification cfg.emailEnabled p.smtpOk
        (⟨if sent then some p.now else none, true⟩,
         pr.log,
         ⟨true, sent, pr.requests, pr.purchased, cfg.cooldown⟩)
    | some t =>
        if st.numbers_were_available ∧ cfg.cooldown ≤ p.now - t then
          let pr := if cfg.autoPurchase then
              purchase_numbers cfg.autoPurchase cfg.purchaseQuantity p.replies p.now log
            else ⟨[], log, 0⟩
          let sent := send_email_notification cfg.emailEnabled p.smtpOk
          (⟨if sent then some p.now else some t, st.numbers_were_available⟩,
           pr.log,
           ⟨true, sent, pr.requests, pr.purchased, cfg.recheckInterval⟩)
        else
          (st, log, ⟨false, false, 0, [], cfg.checkInterval⟩)
  else
    (⟨st.last_notification_time, false⟩, log,
     ⟨false, false, 0, [], cfg.checkInterval⟩)

/-- Configuration of `monitor_one_shot.py` (env / config values). -/
structure OsConfig where
  cooldown : Int
  autoPurchase : Bool
  purchaseQuantity : Nat
  emailEnabled : Bool
  deriving Repr, DecidableEq

/-- The persisted state of `monitor_one_shot.py` (`state.json`):
`last_notified` and `numbers_were_available`. -/
structure OsState where
  last_notified : Option Int
  numbers_were_available : Bool
  deriving Repr, DecidableEq

/-- The environment of one run of `monitor_one_shot.py`. -/
structure OsInput where
  stats : StatsResult
  now : Int
  smtpOk : Bool
  replies : Nat → PurchaseReply

/-- The count extraction of monitor_one_shot.py lines 87-105: a raised
transport/parse exception terminates the run (`none` here, `exit(1)`
there); a payload that is not a dict, lacks `services`, or lacks the
`service_<name>` key leaves `count = 0`. -/
def osParseCount : StatsResult → Option Int
  | .exn => none
  | .nonDict => some 0
  | .missingService => some 0
  | .svc e => some (e.count?.getD 0)

/-- The purchase loop of monitor_one_shot.py lines 144-162: like the
`monitor.py` loop, but entries are stamped immediately with the decision
time and a raised exception merely breaks the loop (the script goes on). -/
def osPurchaseGo (replies : Nat → PurchaseReply) (now : Int) :
    Nat → Nat → List LoggedNumber × Nat
  | _, 0 => ([], 0)
  | i, k+1 =>
      match replies i with
      | .success t n p =>
          let rest := osPurchaseGo replies now (i+1) k
          (⟨t, n, p.getD "N/A", now⟩ :: rest.1, rest.2 + 1)
      | .noNumber => ([], 1)
      | .errMsg _ =>
          let rest := osPurchaseGo replies now (i+1) k
          (rest.1, rest.2 + 1)
      | .unexpected =>
          let rest := osPurchaseGo replies now (i+1) k
          (rest.1, rest.2 + 1)
      | .exn => ([], 1)

/-- The purchases-file update of monitor_one_shot.py lines 200-209: a parse
failure of the existing file yields `allp = []`, after which the file is
rewritten with only the new entries. -/
def osSavePurchases (log : LogFile) (purchased : List LoggedNumber) : LogFile :=
  match log with
  | .missing => .records purchased
  | .corrupt _ => .records purchased
  | .records prior => .records (prior ++ purchased)

/-- Observable outcome of one run of `monitor_one_shot.py`. -/
structure OsResult where
  exitCode : Nat
  state : OsState
  log : LogFile
  notifyCalled : Bool
  emailSent : Bool
  purchaseRequests : Nat
  purchased : List LoggedNumber
  deriving Repr, DecidableEq

/-- The `can_notify` decision of monitor_one_shot.py lines 124-136. -/
def osCanNotify (cfg : OsConfig) (st : OsState) (now : Int) : Bool :=
  match st.last_notified with
  | none => true
  | some t =>
      if st.numbers_were_available then decide (cfg.cooldown ≤ now - t)
      else true

/-- The whole decision cycle of `monitor_one_shot.py` (lines 86-221):
probe (a raised exception exits 1 with nothing written); if no stock, drop
`numbers_were_available` and clear `last_notified` exactly when strictly
older than the cooldown; otherwise, when `can_notify`, purchase (when
enabled), attempt the email, set `last_notified = now` unconditionally and
append any purchases to the log; in cooldown only re-assert
`numbers_were_available`.  Every completed cycle exits 0. -/
def osRun (cfg : OsConfig) (st : OsState) (log : LogFile) (inp : OsInput) :
    OsResult :=
  match osParseCount inp.stats with
  | none => ⟨1, st, log, false, false, 0, []⟩
  | some count =>
      if count ≤ 0 then
        let last' := match st.last_notified with
          | none => none
          | some t => if cfg.cooldown < inp.now - t then none else some t
        ⟨0, ⟨last', false⟩, log, false, false, 0, []⟩
      else
        if osCanNotify cfg st inp.now then
          let pr := if cfg.autoPurchase then
              osPurchaseGo inp.replies inp.now 0 cfg.purchaseQuantity
            else ([], 0)
          let sent := cfg.emailEnabled && inp.smtpOk
          let log' := if pr.1.isEmpty then log else osSavePurchases log pr.1
          ⟨0, ⟨some inp.now, true⟩, log', true, sent, pr.2, pr.1⟩
        else
          ⟨0, ⟨st.last_notified, true⟩, log, false, false, 0, []⟩

/-- A purchase reply that ends the batch early: the `NO_NUMBER` sentinel or
a raised transport/parse exception. -/
def isStopper : PurchaseReply → Bool
  | .noNumber => true
  | .exn => true
  | _ => false

/-- The purchase loop issues at most `fuel` allocation requests. -/
theorem purchaseGo_requests_le (replies : Nat → PurchaseReply) :
    ∀ k i, (purchaseGo replies i k).requests ≤ k := by
  intro k
  induction k with
  | zero => intro i; simp [purchaseGo]
  | succ k ih =>
      intro i
      have hk := ih (i + 1)
      cases h : replies i <;> simp [purchaseGo, h] <;> omega

/-- The purchase loop records at most one entry per issued request. -/
theorem purchaseGo_records_le (replies : Nat → PurchaseReply) :
    ∀ k i, (purchaseGo replies i k).purchased.length ≤
      (purchaseGo replies i k).requests := by
  intro k
  induction k with
  | zero => intro i; simp [purchaseGo]
  | succ k ih =>
      intro i
      have hk := ih (i + 1)
      cases h : replies i <;> simp [purchaseGo, h] <;> omega

/-- When the first stopping reply (`NO_NUMBER` or exception) arrives at
offset `j`, the loop issues exactly `j + 1` requests and records at most
`j` entries. -/
theorem purchaseGo_first_stop (replies : Nat → PurchaseReply) :
    ∀ k i j, j < k → isStopper (replies (i + j)) = true →
      (∀ j', j' < j → isStopper (replies (i + j')) = false) →
      (purchaseGo replies i k).requests = j + 1 ∧
        (purchaseGo replies i k).purchased.length ≤ j := by
  intro k
  induction k with
  | zero => intro i j hj _ _; exact absurd hj (Nat.not_lt_zero j)
  | succ k ih =>
      intro i j hj hstop hbefore
      cases j with
      | zero =>
          have h0 : isStopper (replies i) = true := by simpa using hstop
          cases h : replies i with
          | noNumber => simp [purchaseGo, h]
          | exn => simp [purchaseGo, h]
          | success t n p => rw [h] at h0; simp [isStopper] at h0
          | errMsg m => rw [h] at h0; simp [isStopper] at h0
          | unexpected => rw [h] at h0; simp [isStopper] at h0
      | succ j =>
          have hni : isStopper (replies i) = false := by
            simpa using hbefore 0 (Nat.succ_pos j)
          have hjk : j < k := Nat.lt_of_succ_lt_succ hj
          have hstop' : isStopper (replies (i + 1 + j)) = true := by
            have hidx : i + 1 + j = i + (j + 1) := by omega
            rw [hidx]; exact hstop
          have hbefore' : ∀ j', j' < j → isStopper (replies (i + 1 + j')) = false := by
            intro j' hj'
            have hidx : i + 1 + j' = i + (j' + 1) := by omega
            rw [hidx]
            exact hbefore (j' + 1) (Nat.succ_lt_succ hj')
          have hrest := ih (i + 1) j hjk hstop' hbefore'
          cases h : replies i with
          | noNumber => rw [h] at hni; simp [isStopper] at hni
          | exn => rw [h] at hni; simp [isStopper] at hni
          | success t n p =>
              simp only [purchaseGo, h, List.length_cons]
              omega
          | errMsg m =>
              simp only [purchaseGo, h]
              omega
          | unexpected =>
              simp only [purchaseGo, h]
              omega

/-- The purchase loop ends before exhausting its budget only because some
request got a stopping reply (`NO_NUMBER` or exception). -/
theorem purchaseGo_early_stop (replies : Nat → PurchaseReply) :
    ∀ k i, (purchaseGo replies i k).requests < k →
      ∃ j, j < k ∧ isStopper (replies (i + j)) = true := by
  intro k
  induction k with
  | zero => intro i h; exact absurd h (Nat.not_lt_zero _)
  | succ k ih =>
      intro i h
      cases hr : replies i with
      | noNumber => exact ⟨0, Nat.succ_pos k, by simp [hr, isStopper]⟩
      | exn => exact ⟨0, Nat.succ_pos k, by simp [hr, isStopper]⟩
      | success t n p =>
          simp only [purchaseGo, hr] at h
          obtain ⟨j, hj, hs⟩ := ih (i + 1) (by omega)
          refine ⟨j + 1, by omega, ?_⟩
          have hidx : i + (j + 1) = i + 1 + j := by omega
          rw [hidx]; exact hs
      | errMsg m =>
          simp only [purchaseGo, hr] at h
          obtain ⟨j, hj, hs⟩ := ih (i + 1) (by omega)
          refine ⟨j + 1, by omega, ?_⟩
          have hidx : i + (j + 1) = i + 1 + j := by omega
          rw [hidx]; exact hs
      | unexpected =>
          simp only [purchaseGo, hr] at h
          obtain ⟨j, hj, hs⟩ := ih (i + 1) (by omega)
          refine ⟨j + 1, by omega, ?_⟩
          have hidx : i + (j + 1) = i + 1 + j := by omega
          rw [hidx]; exact hs

/-- The single-shot purchase loop has the same control flow as the
long-running one: its entries are the `monitor.py` records stamped with the
decision time, and it issues the same number of requests. -/
theorem osPurchaseGo_eq (replies : Nat → PurchaseReply) (now : Int) :
    ∀ k i, osPurchaseGo replies now i k =
      ((purchaseGo replies i k).purchased.map (stampRecord now),
       (purchaseGo replies i k).requests) := by
  intro k
  induction k with
  | zero => intro i; simp [osPurchaseGo, purchaseGo]
  | succ k ih =>
      intro i
      cases h : replies i <;>
        simp [osPurchaseGo, purchaseGo, h, ih (i + 1), stampRecord]

/-- Both projections of `purchase_numbers` that do not depend on which save
branch ran: the returned list and the request count come straight from the
loop. -/
theorem purchase_numbers_requests_eq (q : Nat) (replies : Nat → PurchaseReply)
    (now : Int) (log : LogFile) :
    (purchase_numbers true q replies now log).requests =
      (purchaseGo replies 0 q).requests := by
  simp only [purchase_numbers]
  split
  · rename_i h; exact Bool.noConfusion h
  · split
    · rfl
    · split <;> rfl

/-- The list returned by `purchase_numbers` is the loop's list. -/
theorem purchase_numbers_purchased_eq (q : Nat) (replies : Nat → PurchaseReply)
    (now : Int) (log : LogFile) :
    (purchase_numbers true q replies now log).purchased =
      (purchaseGo replies 0 q).purchased := by
  simp only [purchase_numbers]
  split
  · rename_i h; exact Bool.noConfusion h
  · split
    · rfl
    · split <;> rfl

/-- Concrete fixtures used by counterexamples and witnesses. -/
def availStats : StatsResult := .svc ⟨some 5, some "0.19"⟩

/-- Monitor configuration for the concrete scenarios: one-hour cooldown,
five-minute poll, half-hour recheck, auto-purchase off, batch 2, email on. -/
def cexCfg : MonConfig := ⟨3600, 300, 1800, false, 2, true⟩

/-- Same configuration with email disabled. -/
def cexCfgNoEmail : MonConfig := ⟨3600, 300, 1800, false, 2, false⟩

/-- A poll of the long-running monitor with a default reply stream. -/
def mkPoll (s : StatsResult) (t : Int) (ok : Bool) : MonPoll :=
  ⟨s, t, ok, fun _ => PurchaseReply.noNumber⟩

/-- Single-shot configuration for the concrete scenarios. -/
def osCfg : OsConfig := ⟨3600, false, 2, true⟩

/-- A single-shot input with a default reply stream. -/
def mkOsInput (s : StatsResult) (t : Int) (ok : Bool) : OsInput :=
  ⟨s, t, ok, fun _ => PurchaseReply.noNumber⟩

/-- Reply stream whose second request hits the `NO_NUMBER` sentinel. -/
def c6Replies : Nat → PurchaseReply :=
  fun i => if i = 1 then .noNumber else .success "tz0" "36300000000" none

/-- Reply stream answering every request with an error dict. -/
def c10Replies : Nat → PurchaseReply := fun _ => PurchaseReply.errMsg "bad key"

/-- Claim C6: the purchase operation issues at most `quantity` sequential
allocation requests and stops early, returning fewer records than
requested, on the `NO_NUMBER` sentinel or a transport/parse error; with
`quantity = 0` or auto-purchase disabled it returns an empty list with no
side effect (the log is untouched and no request is issued).  Stated for
the `monitor.py` purchase method and the single-shot purchase loop. -/
theorem C6_thm (auto : Bool) (q : Nat) (replies : Nat → PurchaseReply)
    (now : Int) (log : LogFile) (j : Nat)
    (hj : j < q) (hstop : isStopper (replies j) = true)
    (hbefore : ∀ j', j' < j → isStopper (replies j') = false) :
    (purchase_numbers auto q replies now log).requests ≤ q
    ∧ (purchase_numbers auto q replies now log).purchased.length ≤ q
    ∧ (auto = true →
        (purchase_numbers auto q replies now log).requests = j + 1
        ∧ (purchase_numbers auto q replies now log).purchased.length ≤ j
        ∧ (purchase_numbers auto q replies now log).purchased.length < q)
    ∧ purchase_numbers false q replies now log = ⟨[], log, 0⟩
    ∧ purchase_numbers auto 0 replies now log = ⟨[], log, 0⟩
    ∧ (osPurchaseGo replies now 0 q).2 = j + 1
    ∧ (osPurchaseGo replies now 0 q).1.length ≤ j := by
  have hreq := purchaseGo_requests_le replies q 0
  have hrec := purchaseGo_records_le replies q 0
  have hfs := purchaseGo_first_stop replies q 0 j hj
    (by simpa using hstop) (by intro j' hj'; simpa using hbefore j' hj')
  refine ⟨?_, ?_, ?_, ?_, ?_, ?_, ?_⟩
  · cases auto with
    | false => simp [purchase_numbers]
    | true => rw [purchase_numbers_requests_eq]; exact hreq
  · cases auto with
    | false => simp [purchase_numbers]
    | true => rw [purchase_numbers_purchased_eq]; omega
  · intro ha
    subst ha
    rw [purchase_numbers_requests_eq, purchase_numbers_purchased_eq]
    refine ⟨hfs.1, hfs.2, ?_⟩
    omega
  · rfl
  · cases auto <;> rfl
  · rw [osPurchaseGo_eq]
    exact hfs.1
  · rw [osPurchaseGo_eq]
    simpa using hfs.2

/-- Claim C6 witness: batch of three with stock exhaustion at the second
request. -/
theorem C6_witness :
    1 < 3 ∧ isStopper (c6Replies 1) = true
    ∧ ((purchase_numbers true 3 c6Replies 7 .missing).requests ≤ 3
    ∧ (purchase_numbers true 3 c6Replies 7 .missing).purchased.length ≤ 3
    ∧ (true = true →
        (purchase_numbers true 3 c6Replies 7 .missing).requests = 1 + 1
        ∧ (purchase_numbers true 3 c6Replies 7 .missing).purchased.length ≤ 1
        ∧ (purchase_numbers true 3 c6Replies 7 .missing).purchased.length < 3)
    ∧ purchase_numbers false 3 c6Replies 7 .missing = ⟨[], .missing, 0⟩
    ∧ purchase_numbers true 0 c6Replies 7 .missing = ⟨[], .missing, 0⟩
    ∧ (osPurchaseGo c6Replies 7 0 3).2 = 1 + 1
    ∧ (osPurchaseGo c6Replies 7 0 3).1.length ≤ 1) :=
  ⟨by decide, by decide,
    C6_thm true 3 c6Replies 7 .missing 1 (by decide) (by decide)
      (by decide)⟩

/-- Claim C7: the long-running availability probe is total and degrades a
transport/parse exception, a malformed payload, or a missing
`service_<name>` key to `(available = false, count = 0)`, while the
single-shot variant terminates with a non-zero exit on a probe
exception. -/
theorem C7_thm (cfg : OsConfig) (st : OsState) (log : LogFile) (now : Int)
    (ok : Bool) (rep : Nat → PurchaseReply) :
    check_numbers_available .exn = (false, 0, none)
    ∧ check_numbers_available .nonDict = (false, 0, none)
    ∧ check_numbers_available .missingService = (false, 0, none)
    ∧ (osRun cfg st log ⟨.exn, now, ok, rep⟩).exitCode = 1 :=
  ⟨rfl, rfl, rfl, rfl⟩

/-- New records offered to the purchase log in the C8 scenario. -/
def c8New : NumberInfo := ⟨"tz1", "36301111111", "0.19"⟩

/-- The same record stamped, as the one-shot script stores it. -/
def c8Entry : LoggedNumber := ⟨"tz1", "36301111111", "0.19", 50⟩

/-- Claim C8 counterexample: with an unreadable/corrupt existing log, the
long-running monitor appends nothing at all (the new records are not
persisted), and the single-shot script rewrites the file with only the new
records (the prior content is overwritten). -/
theorem C8_counterexample :
    save_purchased_numbers 50 (.corrupt "oops") [c8New] = .corrupt "oops"
    ∧ osSavePurchases (.corrupt "oops") [c8Entry] = .records [c8Entry] :=
  ⟨rfl, rfl⟩

/-- Claim C8 (amended): when the existing log is missing or readable, both
variants append the new records (the monitor stamping each with the save
time) and leave every previously logged record unchanged; when the log is
unreadable/corrupt, the long-running monitor writes nothing (the new
records are lost, the old content is untouched) and the single-shot
variant replaces the file with only the new records. -/
theorem C8_amended_thm (now : Int) (prior : List LoggedNumber) (raw : String)
    (ps : List NumberInfo) (qs : List LoggedNumber) :
    save_purchased_numbers now (.records prior) ps
      = .records (prior ++ ps.map (stampRecord now))
    ∧ save_purchased_numbers now .missing ps = .records (ps.map (stampRecord now))
    ∧ save_purchased_numbers now (.corrupt raw) ps = .corrupt raw
    ∧ osSavePurchases (.records prior) qs = .records (prior ++ qs)
    ∧ osSavePurchases .missing qs = .records qs
    ∧ osSavePurchases (.corrupt raw) qs = .records qs :=
  ⟨rfl, rfl, rfl, rfl, rfl, rfl⟩

/-- Claim C9: the single-shot process exits 0 on every completed decision
cycle (available or not, whatever the purchase and email outcomes) and
non-zero exactly when the availability query raises. -/
theorem C9_thm (cfg : OsConfig) (st : OsState) (log : LogFile) (inp : OsInput) :
    (osRun cfg st log inp).exitCode = if inp.stats = .exn then 1 else 0 := by
  obtain ⟨stats, now, ok, rep⟩ := inp
  cases stats with
  | exn => rfl
  | nonDict => rfl
  | missingService => rfl
  | svc e =>
      rw [if_neg (by simp : ¬(StatsResult.svc e = StatsResult.exn))]
      simp only [osRun, osParseCount]
      split
      · rfl
      · split <;> rfl

/-- Claim C10: in the long-running purchase batch, an error-dict or
otherwise unexpected reply does not terminate the loop — no record is
added for that attempt and the next allocation request is issued — and a
batch that ends before its budget does so only because some request got
the `NO_NUMBER` sentinel or raised. -/
theorem C10_thm (replies : Nat → PurchaseReply) (i k : Nat) (m : String)
    (h : replies i = .errMsg m ∨ replies i = .unexpected) :
    purchaseGo replies i (k + 1) =
      ⟨(purchaseGo replies (i + 1) k).purchased,
       (purchaseGo replies (i + 1) k).requests + 1,
       (purchaseGo replies (i + 1) k).raised⟩
    ∧ ((purchaseGo replies i (k + 1)).requests < k + 1 →
        ∃ j, j < k + 1 ∧ isStopper (replies (i + j)) = true) := by
  constructor
  · rcases h with h | h <;> simp [purchaseGo, h]
  · exact purchaseGo_early_stop replies (k + 1) i

/-- Claim C10 witness: an error reply at the first of two attempts. -/
theorem C10_witness :
    purchaseGo c10Replies 0 (1 + 1) =
      ⟨(purchaseGo c10Replies (0 + 1) 1).purchased,
       (purchaseGo c10Replies (0 + 1) 1).requests + 1,
       (purchaseGo c10Replies (0 + 1) 1).raised⟩
    ∧ ((purchaseGo c10Replies 0 (1 + 1)).requests < 1 + 1 →
        ∃ j, j < 1 + 1 ∧ isStopper (c10Replies (0 + j)) = true) :=
  C10_thm c10Replies 0 1 "bad key" (Or.inl rfl)

/-- Claim C1 counterexample: in the long-running monitor, starting from the
initial state, an availability window that closes and reopens within the
cooldown leaves `numbers_were_available` stale at `false` on a poll whose
snapshot is available (polls at times 0, 10 and 20; cooldown 3600). -/
theorem C1_counterexample :
    (monStep cexCfg ⟨none, false⟩ .missing (mkPoll availStats 0 true)).1
      = ⟨some 0, true⟩
    ∧ (monStep cexCfg ⟨some 0, true⟩ .missing (mkPoll .missingService 10 true)).1
      = ⟨some 0, false⟩
    ∧ (check_numbers_available availStats).1 = true
    ∧ (monStep cexCfg ⟨some 0, false⟩ .missing (mkPoll availStats 20 true)).1.numbers_were_available
      = false := by
  decide

/-- Claim C1 (amended): after every completed single-shot decision cycle
`was_available` equals the availability of that cycle's snapshot; in the
long-running monitor the flag becomes the snapshot's availability on an
unavailable poll and on a first sighting, but on an available poll with a
previous notification on record it merely keeps its prior value, so it
stays stale at false when availability lapsed and resumed. -/
theorem C1_amended_thm (cfg : MonConfig) (st : MonState) (log : LogFile)
    (p : MonPoll) (ocfg : OsConfig) (ost : OsState) (olog : LogFile)
    (oin : OsInput) (cnt : Int) (h : osParseCount oin.stats = some cnt) :
    (monStep cfg st log p).1.numbers_were_available
      = ((check_numbers_available p.stats).1
          && (st.last_notification_time.isNone || st.numbers_were_available))
    ∧ (osRun ocfg ost olog oin).state.numbers_were_available = decide (0 < cnt) := by
  constructor
  · obtain ⟨lnt, wa⟩ := st
    cases hb : (check_numbers_available p.stats).1 with
    | false => simp [monStep, hb]
    | true =>
        cases lnt with
        | none => simp [monStep, hb]
        | some t =>
            simp only [monStep, hb]
            rw [if_pos trivial]
            split <;> simp
  · obtain ⟨stats, onow, ok, rep⟩ := oin
    simp only [osRun, h]
    by_cases hc : cnt ≤ 0
    · have hnp : ¬(0 < cnt) := by omega
      simp [hc, hnp]
    · have hp : 0 < cnt := by omega
      simp only [if_neg hc]
      split <;> simp [hp]

/-- Claim C1 amended witness: concrete first sighting in both variants. -/
theorem C1_amended_witness :
    osParseCount (mkOsInput availStats 0 true).stats = some 5
    ∧ ((monStep cexCfg ⟨none, false⟩ .missing (mkPoll availStats 0 true)).1.numbers_were_available
        = ((check_numbers_available (mkPoll availStats 0 true).stats).1
            && ((⟨none, false⟩ : MonState).last_notification_time.isNone
                || (⟨none, false⟩ : MonState).numbers_were_available))
      ∧ (osRun osCfg ⟨none, false⟩ .missing (mkOsInput availStats 0 true)).state.numbers_were_available
        = decide ((0 : Int) < 5)) :=
  ⟨by decide,
    C1_amended_thm cexCfg ⟨none, false⟩ .missing (mkPoll availStats 0 true)
      osCfg ⟨none, false⟩ .missing (mkOsInput availStats 0 true) 5 (by decide)⟩

/-- Claim C2 counterexample: on a first sighting with failing email
delivery, the long-running monitor attempts the notification but leaves
`last_notification_time` unset, so it does not equal the poll time. -/
theorem C2_counterexample :
    (check_numbers_available availStats).1 = true
    ∧ (monStep cexCfg ⟨none, false⟩ .missing (mkPoll availStats 100 false)).2.2.notifyAttempted
      = true
    ∧ (monStep cexCfg ⟨none, false⟩ .missing (mkPoll availStats 100 false)).1.last_notification_time
      ≠ some 100 := by
  decide

/-- Claim C2 (amended): on a first sighting (snapshot available,
`last_notified_at` unset) both controllers optionally purchase and perform
exactly one notification attempt, and afterwards `was_available` is true;
the single-shot variant then sets `last_notified_at = now` whether or not
delivery succeeded, while the long-running monitor sets it to `now` exactly
when delivery succeeded and otherwise leaves it unset. -/
theorem C2_amended_thm (cfg : MonConfig) (wa : Bool) (log : LogFile)
    (p : MonPoll) (ocfg : OsConfig) (owa : Bool) (olog : LogFile)
    (oin : OsInput) (cnt : Int)
    (hA : (check_numbers_available p.stats).1 = true)
    (ho : osParseCount oin.stats = some cnt) (hcnt : 0 < cnt) :
    (monStep cfg ⟨none, wa⟩ log p).2.2.notifyAttempted = true
    ∧ (monStep cfg ⟨none, wa⟩ log p).1.numbers_were_available = true
    ∧ (monStep cfg ⟨none, wa⟩ log p).1.last_notification_time
        = (if send_email_notification cfg.emailEnabled p.smtpOk then some p.now else none)
    ∧ (osRun ocfg ⟨none, owa⟩ olog oin).notifyCalled = true
    ∧ (osRun ocfg ⟨none, owa⟩ olog oin).state.last_notified = some oin.now
    ∧ (osRun ocfg ⟨none, owa⟩ olog oin).state.numbers_were_available = true := by
  have hne : ¬ cnt ≤ 0 := by omega
  refine ⟨?_, ?_, ?_, ?_, ?_, ?_⟩
  · simp [monStep, hA]
  · simp [monStep, hA]
  · simp [monStep, hA]
  · simp [osRun, ho, hne, osCanNotify]
  · simp [osRun, ho, hne, osCanNotify]
  · simp [osRun, ho, hne, osCanNotify]

/-- Claim C2 amended witness: concrete first sighting, failing delivery in
the monitor, succeeding delivery in the single-shot run. -/
theorem C2_amended_witness :
    (check_numbers_available (mkPoll availStats 100 false).stats).1 = true
    ∧ osParseCount (mkOsInput availStats 100 true).stats = some 5
    ∧ (0 : Int) < 5
    ∧ ((monStep cexCfg ⟨none, false⟩ .missing (mkPoll availStats 100 false)).2.2.notifyAttempted = true
    ∧ (monStep cexCfg ⟨none, false⟩ .missing (mkPoll availStats 100 false)).1.numbers_were_available = true
    ∧ (monStep cexCfg ⟨none, false⟩ .missing (mkPoll availStats 100 false)).1.last_notification_time
        = (if send_email_notification cexCfg.emailEnabled (mkPoll availStats 100 false).smtpOk
            then some (mkPoll availStats 100 false).now else none)
    ∧ (osRun osCfg ⟨none, false⟩ .missing (mkOsInput availStats 100 true)).notifyCalled = true
    ∧ (osRun osCfg ⟨none, false⟩ .missing (mkOsInput availStats 100 true)).state.last_notified
        = some (mkOsInput availStats 100 true).now
    ∧ (osRun osCfg ⟨none, false⟩ .missing (mkOsInput availStats 100 true)).state.numbers_were_available
        = true) :=
  ⟨by decide, by decide, by decide,
    C2_amended_thm cexCfg false .missing (mkPoll availStats 100 false)
      osCfg false .missing (mkOsInput availStats 100 true) 5
      (by decide) (by decide) (by decide)⟩

/-- Claim C3 counterexample: on an unavailable poll with the previous
notification older than the cooldown (elapsed 4000 > 3600), the
long-running monitor does not clear `last_notification_time` as the claim
requires. -/
theorem C3_counterexample :
    (check_numbers_available StatsResult.missingService).1 = false
    ∧ cexCfg.cooldown < (4000 : Int) - 0
    ∧ (monStep cexCfg ⟨some 0, true⟩ .missing (mkPoll .missingService 4000 true)).1.last_notification_time
      = some 0 := by
  decide

/-- Claim C3 (amended): on an unavailable cycle the single-shot variant
behaves exactly as claimed — `was_available` becomes false,
`last_notified_at` is cleared iff a previous notification exists and is
strictly older than the cooldown, no notification or purchase occurs, the
log is untouched, and a cleared state makes the next available cycle notify
as a first sighting.  The long-running monitor also drops the flag and
performs no notification or purchase, but never clears
`last_notification_time` on this path. -/
theorem C3_amended_thm (cfg : MonConfig) (st : MonState) (log : LogFile)
    (p : MonPoll) (ocfg : OsConfig) (ost : OsState) (olog : LogFile)
    (oin : OsInput) (cnt : Int) (oin2 : OsInput) (cnt2 : Int) (olog2 : LogFile)
    (hA : (check_numbers_available p.stats).1 = false)
    (ho : osParseCount oin.stats = some cnt) (hc : cnt ≤ 0)
    (ho2 : osParseCount oin2.stats = some cnt2) (hc2 : 0 < cnt2) :
    (osRun ocfg ost olog oin).state.numbers_were_available = false
    ∧ (osRun ocfg ost olog oin).state.last_notified
        = (match ost.last_notified with
           | none => none
           | some t => if ocfg.cooldown < oin.now - t then none else some t)
    ∧ (osRun ocfg ost olog oin).notifyCalled = false
    ∧ (osRun ocfg ost olog oin).purchaseRequests = 0
    ∧ (osRun ocfg ost olog oin).log = olog
    ∧ (osRun ocfg ⟨none, false⟩ olog2 oin2).notifyCalled = true
    ∧ (monStep cfg st log p).1.numbers_were_available = false
    ∧ (monStep cfg st log p).1.last_notification_time = st.last_notification_time
    ∧ (monStep cfg st log p).2.2.notifyAttempted = false
    ∧ (monStep cfg st log p).2.2.purchaseRequests = 0 := by
  have hne2 : ¬ cnt2 ≤ 0 := by omega
  refine ⟨?_, ?_, ?_, ?_, ?_, ?_, ?_, ?_, ?_, ?_⟩
  · simp [osRun, ho, hc]
  · simp [osRun, ho, hc]
  · simp [osRun, ho, hc]
  · simp [osRun, ho, hc]
  · simp [osRun, ho, hc]
  · simp [osRun, ho2, hne2, osCanNotify]
  · simp [monStep, hA]
  · simp [monStep, hA]
  · simp [monStep, hA]
  · simp [monStep, hA]

/-- Claim C3 amended witness: lapse at time 4000 after a notification at
time 0 with cooldown 3600, then availability again at time 5000. -/
theorem C3_amended_witness :
    (check_numbers_available (mkPoll .missingService 4000 true).stats).1 = false
    ∧ osParseCount (mkOsInput .missingService 4000 true).stats = some 0
    ∧ (0 : Int) ≤ 0
    ∧ osParseCount (mkOsInput availStats 5000 true).stats = some 5
    ∧ (0 : Int) < 5
    ∧ ((osRun osCfg ⟨some 0, true⟩ .missing (mkOsInput .missingService 4000 true)).state.numbers_were_available = false
    ∧ (osRun osCfg ⟨some 0, true⟩ .missing (mkOsInput .missingService 4000 true)).state.last_notified
        = (match (⟨some 0, true⟩ : OsState).last_notified with
           | none => none
           | some t => if osCfg.cooldown < (mkOsInput .missingService 4000 true).now - t
                       then none else some t)
    ∧ (osRun osCfg ⟨some 0, true⟩ .missing (mkOsInput .missingService 4000 true)).notifyCalled = false
    ∧ (osRun osCfg ⟨some 0, true⟩ .missing (mkOsInput .missingService 4000 true)).purchaseRequests = 0
    ∧ (osRun osCfg ⟨some 0, true⟩ .missing (mkOsInput .missingService 4000 true)).log = .missing
    ∧ (osRun osCfg ⟨none, false⟩ .missing (mkOsInput availStats 5000 true)).notifyCalled = true
    ∧ (monStep cexCfg ⟨some 0, true⟩ .missing (mkPoll .missingService 4000 true)).1.numbers_were_available = false
    ∧ (monStep cexCfg ⟨some 0, true⟩ .missing (mkPoll .missingService 4000 true)).1.last_notification_time
        = (⟨some 0, true⟩ : MonState).last_notification_time
    ∧ (monStep cexCfg ⟨some 0, true⟩ .missing (mkPoll .missingService 4000 true)).2.2.notifyAttempted = false
    ∧ (monStep cexCfg ⟨some 0, true⟩ .missing (mkPoll .missingService 4000 true)).2.2.purchaseRequests = 0) :=
  ⟨by decide, by decide, by decide, by decide, by decide,
    C3_amended_thm cexCfg ⟨some 0, true⟩ .missing (mkPoll .missingService 4000 true)
      osCfg ⟨some 0, true⟩ .missing (mkOsInput .missingService 4000 true) 0
      (mkOsInput availStats 5000 true) 5 .missing
      (by decide) (by decide) (by decide) (by decide) (by decide)⟩

/-- Claim C4 counterexample: the single-shot variant, inside the cooldown
(elapsed 100 < 3600) but with `was_available = false`, performs the
purchase/notify cycle, contradicting "no notification regardless of the
value of was_available". -/
theorem C4_counterexample :
    osParseCount availStats = some 5
    ∧ ((0 : Int) < 5)
    ∧ ((100 : Int) - 0 < osCfg.cooldown)
    ∧ (osRun osCfg ⟨some 0, false⟩ .missing (mkOsInput availStats 100 true)).notifyCalled
      = true := by
  decide

/-- Claim C4 (amended): on an available poll with a previous notification
inside the cooldown, the long-running monitor performs no purchase and no
notification and leaves its state untouched whatever `was_available` is;
the single-shot variant does so only when `was_available` is true — with
`was_available` false it performs the purchase/notify cycle instead. -/
theorem C4_amended_thm (cfg : MonConfig) (t : Int) (wa : Bool) (log : LogFile)
    (p : MonPoll) (ocfg : OsConfig) (ot : Int) (olog : LogFile)
    (oin : OsInput) (cnt : Int)
    (hA : (check_numbers_available p.stats).1 = true)
    (hlt : p.now - t < cfg.cooldown)
    (ho : osParseCount oin.stats = some cnt) (hcnt : 0 < cnt)
    (holt : oin.now - ot < ocfg.cooldown) :
    monStep cfg ⟨some t, wa⟩ log p
      = (⟨some t, wa⟩, log, ⟨false, false, 0, [], cfg.checkInterval⟩)
    ∧ (osRun ocfg ⟨some ot, true⟩ olog oin).notifyCalled = false
    ∧ (osRun ocfg ⟨some ot, true⟩ olog oin).purchaseRequests = 0
    ∧ (osRun ocfg ⟨some ot, true⟩ olog oin).state.last_notified = some ot := by
  have hmlt : ¬ cfg.cooldown ≤ p.now - t := by omega
  have hne : ¬ cnt ≤ 0 := by omega
  have holt' : ¬ ocfg.cooldown ≤ oin.now - ot := by omega
  refine ⟨?_, ?_, ?_, ?_⟩
  · simp [monStep, hA, hmlt]
  · simp [osRun, ho, hne, osCanNotify, holt']
  · simp [osRun, ho, hne, osCanNotify, holt']
  · simp [osRun, ho, hne, osCanNotify, holt']

/-- Claim C4 amended witness: poll at time 100 after a notification at
time 0 with cooldown 3600, `was_available` true. -/
theorem C4_amended_witness :
    (check_numbers_available (mkPoll availStats 100 true).stats).1 = true
    ∧ (mkPoll availStats 100 true).now - 0 < cexCfg.cooldown
    ∧ osParseCount (mkOsInput availStats 100 true).stats = some 5
    ∧ (0 : Int) < 5
    ∧ (mkOsInput availStats 100 true).now - 0 < osCfg.cooldown
    ∧ (monStep cexCfg ⟨some 0, true⟩ .missing (mkPoll availStats 100 true)
        = (⟨some 0, true⟩, .missing, ⟨false, false, 0, [], cexCfg.checkInterval⟩)
    ∧ (osRun osCfg ⟨some 0, true⟩ .missing (mkOsInput availStats 100 true)).notifyCalled = false
    ∧ (osRun osCfg ⟨some 0, true⟩ .missing (mkOsInput availStats 100 true)).purchaseRequests = 0
    ∧ (osRun osCfg ⟨some 0, true⟩ .missing (mkOsInput availStats 100 true)).state.last_notified
        = some 0) :=
  ⟨by decide, by decide, by decide, by decide, by decide,
    C4_amended_thm cexCfg 0 true .missing (mkPoll availStats 100 true)
      osCfg 0 .missing (mkOsInput availStats 100 true) 5
      (by decide) (by decide) (by decide) (by decide) (by decide)⟩

/-- Claim C5 counterexample: in the long-running monitor a recheck cycle
with email disabled attempts the notification but does not refresh
`last_notification_time` to the new poll time. -/
theorem C5_counterexample :
    (check_numbers_available availStats).1 = true
    ∧ cexCfgNoEmail.cooldown ≤ (4000 : Int) - 0
    ∧ (monStep cexCfgNoEmail ⟨some 0, true⟩ .missing (mkPoll availStats 4000 true)).2.2.notifyAttempted
      = true
    ∧ (monStep cexCfgNoEmail ⟨some 0, true⟩ .missing (mkPoll availStats 4000 true)).1.last_notification_time
      ≠ some 4000 := by
  decide

/-- Claim C5 (amended): on an available poll with `was_available` true and
a full cooldown elapsed, both controllers perform one more purchase-and-
notify cycle; the single-shot variant refreshes `last_notified_at` to the
new time unconditionally, while the long-running monitor refreshes it
exactly when delivery succeeded and otherwise keeps the old timestamp. -/
theorem C5_amended_thm (cfg : MonConfig) (t : Int) (log : LogFile)
    (p : MonPoll) (ocfg : OsConfig) (ot : Int) (olog : LogFile)
    (oin : OsInput) (cnt : Int)
    (hA : (check_numbers_available p.stats).1 = true)
    (hge : cfg.cooldown ≤ p.now - t)
    (ho : osParseCount oin.stats = some cnt) (hcnt : 0 < cnt)
    (hoge : ocfg.cooldown ≤ oin.now - ot) :
    (monStep cfg ⟨some t, true⟩ log p).2.2.notifyAttempted = true
    ∧ (monStep cfg ⟨some t, true⟩ log p).1.numbers_were_available = true
    ∧ (monStep cfg ⟨some t, true⟩ log p).1.last_notification_time
        = (if send_email_notification cfg.emailEnabled p.smtpOk then some p.now else some t)
    ∧ (monStep cfg ⟨some t, true⟩ log p).2.2.sleepFor = cfg.recheckInterval
    ∧ (osRun ocfg ⟨some ot, true⟩ olog oin).notifyCalled = true
    ∧ (osRun ocfg ⟨some ot, true⟩ olog oin).state.last_notified = some oin.now
    ∧ (osRun ocfg ⟨some ot, true⟩ olog oin).state.numbers_were_available = true := by
  have hne : ¬ cnt ≤ 0 := by omega
  refine ⟨?_, ?_, ?_, ?_, ?_, ?_, ?_⟩
  · simp [monStep, hA, hge]
  · simp [monStep, hA, hge]
  · simp [monStep, hA, hge]
  · simp [monStep, hA, hge]
  · simp [osRun, ho, hne, osCanNotify, hoge]
  · simp [osRun, ho, hne, osCanNotify, hoge]
  · simp [osRun, ho, hne, osCanNotify, hoge]

/-- Claim C5 amended witness: recheck at time 4000 after a notification at
time 0 with cooldown 3600, email delivery failing in the monitor. -/
theorem C5_amended_witness :
    (check_numbers_available (mkPoll availStats 4000 false).stats).1 = true
    ∧ cexCfg.cooldown ≤ (mkPoll availStats 4000 false).now - 0
    ∧ osParseCount (mkOsInput availStats 4000 true).stats = some 5
    ∧ (0 : Int) < 5
    ∧ osCfg.cooldown ≤ (mkOsInput availStats 4000 true).now - 0
    ∧ ((monStep cexCfg ⟨some 0, true⟩ .missing (mkPoll availStats 4000 false)).2.2.notifyAttempted = true
    ∧ (monStep cexCfg ⟨some 0, true⟩ .missing (mkPoll availStats 4000 false)).1.numbers_were_available = true
    ∧ (monStep cexCfg ⟨some 0, true⟩ .missing (mkPoll availStats 4000 false)).1.last_notification_time
        = (if send_email_notification cexCfg.emailEnabled (mkPoll availStats 4000 false).smtpOk
            then some (mkPoll availStats 4000 false).now else some 0)
    ∧ (monStep cexCfg ⟨some 0, true⟩ .missing (mkPoll availStats 4000 false)).2.2.sleepFor
        = cexCfg.recheckInterval
    ∧ (osRun osCfg ⟨some 0, true⟩ .missing (mkOsInput availStats 4000 true)).notifyCalled = true
    ∧ (osRun osCfg ⟨some 0, true⟩ .missing (mkOsInput availStats 4000 true)).state.last_notified
        = some (mkOsInput availStats 4000 true).now
    ∧ (osRun osCfg ⟨some 0, true⟩ .missing (mkOsInput availStats 4000 true)).state.numbers_were_available
        = true) :=
  ⟨by decide, by decide, by decide, by decide, by decide,
    C5_amended_thm cexCfg 0 .missing (mkPoll availStats 4000 false)
      osCfg 0 .missing (mkOsInput availStats 4000 true) 5
      (by decide) (by decide) (by decide) (by decide) (by decide)⟩

end OnlineMonitor
